import Mathlib

/-!
Verification of the core components of the nova-reel video generator:
the ordered image selection manager (`image_selection_manager.py`), the
job orchestrator (`backend/video_generator.py`) and the provider/status
adapter (`backend/aws_client.py`).

Python strings are modelled by `String`, Python lists by `List`, and
Python dicts by association lists `List (String × β)` with unique keys
and insertion-order iteration, which matches CPython dict semantics.
Raw video bytes are modelled opaquely by `String`.
-/

namespace NovaReel

/-- Model of Python `d.get(k)` / `k in d` on a dict represented as an
association list (first matching key wins; real dicts have unique keys). -/
def pyGet {β : Type} : List (String × β) → String → Option β
  | [], _ => none
  | kv :: rest, k => if kv.1 = k then some kv.2 else pyGet rest k

/-- Model of Python `d[k] = v`: update the value in place when the key is
present (preserving dict order), append a fresh binding otherwise. -/
def pyDictSet {β : Type} (d : List (String × β)) (k : String) (v : β) :
    List (String × β) :=
  if (pyGet d k).isSome then
    d.map (fun kv => if kv.1 = k then (k, v) else kv)
  else
    d ++ [(k, v)]

/-- Model of Python `del d[k]`: drop the (unique) binding for `k`. -/
def pyDictErase {β : Type} : List (String × β) → String → List (String × β)
  | [], _ => []
  | kv :: rest, k => if kv.1 = k then rest else kv :: pyDictErase rest k

/-- Model of Python `l.remove(x)`: drop the first occurrence. The caller
guards against absence (Python raises `ValueError` there). -/
def pyListRemove : List String → String → List String
  | [], _ => []
  | q :: rest, p => if q = p then rest else q :: pyListRemove rest p

/-- `ImageSelectionManager` state (`image_selection_manager.py`, lines 21-31):
the ordered list of selected image paths, the path → rank dict, the next
rank to hand out, and the capacity (`max_selections`, default 8). -/
structure ImageSelectionManager where
  max_selections : Nat
  selected_images : List String
  selection_order : List (String × Nat)
  next_order : Nat

deriving instance DecidableEq for ImageSelectionManager

/-- `ImageSelectionManager.__init__`. -/
def ImageSelectionManager.init (max_selections : Nat) : ImageSelectionManager :=
  { max_selections := max_selections
    selected_images := []
    selection_order := []
    next_order := 1 }

/-- `add_selection` (lines 35-71). Returns the `(success, message)` pair and
the successor state. The `try/except` wrapper is not modelled: no statement
in the body can raise. -/
def add_selection (m : ImageSelectionManager) (p : String) :
    (Bool × String) × ImageSelectionManager :=
  if m.max_selections ≤ m.selected_images.length then
    ((false, "已达到最大选择数量(" ++ toString m.max_selections ++ "张)"), m)
  else if (pyGet m.selection_order p).isSome then
    ((false, "图片已被选择"), m)
  else
    ((true, "已选择第" ++ toString m.next_order ++ "张图片"),
      { m with
        selected_images := m.selected_images ++ [p]
        selection_order := pyDictSet m.selection_order p m.next_order
        next_order := m.next_order + 1 })

/-- The re-ranking loop of `remove_selection` (lines 98-100): for each
remaining image, read its rank (a missing key would raise `KeyError`,
reported as the `false` component, returning the dict mutated so far) and
decrement it when it exceeds the removed rank. -/
def rerankLoop : List String → List (String × Nat) → Nat →
    Bool × List (String × Nat)
  | [], d, _ => (true, d)
  | q :: rest, d, r =>
    match pyGet d q with
    | none => (false, d)
    | some v => rerankLoop rest (if r < v then pyDictSet d q (v - 1) else d) r

/-- `remove_selection` (lines 73-112). On the (unreachable under the class
invariant) `ValueError`/`KeyError` paths the `except` handler returns
`false` with the partially mutated state, as the Python does; the exception
text is abstracted. -/
def remove_selection (m : ImageSelectionManager) (p : String) :
    (Bool × String) × ImageSelectionManager :=
  match pyGet m.selection_order p with
  | none => ((false, "图片未被选择"), m)
  | some removed_order =>
    if p ∈ m.selected_images then
      let imgs := pyListRemove m.selected_images p
      let d := pyDictErase m.selection_order p
      match rerankLoop imgs d removed_order with
      | (true, d2) =>
        ((true, "已取消选择，剩余" ++ toString imgs.length ++ "张图片"),
          { m with
            selected_images := imgs
            selection_order := d2
            next_order := imgs.length + 1 })
      | (false, d2) =>
        ((false, "移除选择时发生错误: KeyError"),
          { m with selected_images := imgs, selection_order := d2 })
    else
      ((false, "移除选择时发生错误: ValueError"), m)

/-- `get_ordered_images` (lines 114-121): the list in selection order. -/
def get_ordered_images (m : ImageSelectionManager) : List String :=
  m.selected_images

/-- `clear_all` (lines 139-160). -/
def clear_all (m : ImageSelectionManager) :
    (Bool × String) × ImageSelectionManager :=
  ((true, "已清空所有选择，共清除" ++ toString m.selected_images.length ++ "张图片"),
    { m with selected_images := [], selection_order := [], next_order := 1 })

/-- `is_selected` (lines 162-172). -/
def is_selected (m : ImageSelectionManager) (p : String) : Bool :=
  (pyGet m.selection_order p).isSome

/-- `get_selection_order` (lines 174-184): the rank of an image, if any. -/
def get_selection_order (m : ImageSelectionManager) (p : String) : Option Nat :=
  pyGet m.selection_order p

/-- `is_full` (lines 186-193). -/
def is_full (m : ImageSelectionManager) : Bool :=
  m.max_selections ≤ m.selected_images.length

/-- The dict assigning ranks `n, n+1, …` to a list of paths in order. -/
def ranksFrom : Nat → List String → List (String × Nat)
  | _, [] => []
  | n, p :: rest => (p, n) :: ranksFrom (n + 1) rest

/-- Structural invariant of reachable `ImageSelectionManager` states:
no duplicate selections, the rank dict assigns exactly the contiguous
ranks `1..len` along the selection list, `next_order` is `len + 1`, and
the capacity bound holds. -/
def Inv (m : ImageSelectionManager) : Prop :=
  m.selected_images.Nodup ∧
  m.selection_order = ranksFrom 1 m.selected_images ∧
  m.next_order = m.selected_images.length + 1 ∧
  m.selected_images.length ≤ m.max_selections

instance (m : ImageSelectionManager) : Decidable (Inv m) :=
  decidable_of_iff
    (m.selected_images.Nodup ∧
      m.selection_order = ranksFrom 1 m.selected_images ∧
      m.next_order = m.selected_images.length + 1 ∧
      m.selected_images.length ≤ m.max_selections)
    Iff.rfl

/-! ## Provider adapter: `backend/aws_client.py` -/

/-- Python `s.startswith(p)`, on the character lists underlying the strings. -/
def strStartsWith (s p : String) : Bool :=
  p.data.isPrefixOf s.data

/-- Python `s.endswith(p)`. -/
def strEndsWith (s p : String) : Bool :=
  p.data.isSuffixOf s.data

/-- Python `s.split(sep, 1)` unpacked into two variables: `none` models the
`ValueError` raised when the separator is absent. -/
def splitOnce : List Char → Char → Option (List Char × List Char)
  | [], _ => none
  | c :: rest, sep =>
    if c = sep then some ([], rest)
    else
      match splitOnce rest sep with
      | none => none
      | some (a, b) => some (c :: a, b)

/-- The S3 bucket named by the output locator: object keys mapped to their
bytes, in listing order. Keys are unique, as in S3. -/
structure S3Bucket where
  objects : List (String × String)

deriving instance DecidableEq for S3Bucket

/-- `AWSBedrockClient._download_from_s3` (lines 287-335). `get_object` is
modelled as key lookup (absence is `NoSuchKey`, the only exception the code
catches there), `list_objects_v2` as filtering the bucket by key prefix.
`Except.error` carries `str(e)` of the exception the Python raises. -/
def download_from_s3 (s3 : S3Bucket) (s3_uri : String) : Except String String :=
  if strStartsWith s3_uri ("s3://") = false then
    Except.error ("Failed to download video from S3: Invalid S3 URI: " ++ s3_uri)
  else
    match splitOnce (s3_uri.data.drop 5) ('/') with
    | none =>
      Except.error
        ("Failed to download video from S3: not enough values to unpack (expected 2, got 1)")
    | some (_bucket, keyChars) =>
      let key : String := ⟨keyChars⟩
      match pyGet s3.objects (key ++ "/output.mp4") with
      | some bytes => Except.ok bytes
      | none =>
        let matching := s3.objects.filter (fun kv => strStartsWith kv.1 key)
        if matching.isEmpty then
          Except.error ("Failed to download video from S3: No files found in S3 output directory")
        else
          match matching.find? (fun kv => strEndsWith kv.1 (".mp4")) with
          | some kv => Except.ok kv.2
          | none =>
            Except.error
              ("Failed to download video from S3: No video file (.mp4) found in S3 output directory")

/-- The provider's `get_async_invoke` response, as read by
`get_async_nova_reel_result`: the `status` field, the
`outputDataConfig.s3OutputDataConfig.s3Uri` field (the code defaults it to
`""` when absent), the embedded
`outputDataConfig.outputData.videoGenerationResult.video` fallback payload
(already base64-decoded) when present, and `failureMessage`. -/
structure InvokeResponse where
  status : String
  s3Uri : String
  outputData : Option String
  failureMessage : Option String

deriving instance DecidableEq for InvokeResponse

/-- The dict returned by `get_async_nova_reel_result`. -/
structure NovaResult where
  status : String
  message : String
  video_data : Option String := none

deriving instance DecidableEq for NovaResult

/-- `AWSBedrockClient.get_async_nova_reel_result` (lines 213-285). The
first argument is the outcome of the `get_async_invoke` call for this job
(`Except.error` models an exception, e.g. a network failure, whose text is
carried). Every exception escaping the body — including a download
failure — is caught and returned as an `error` status dict. -/
def get_async_nova_reel_result (resp : Except String InvokeResponse)
    (s3 : S3Bucket) (job_id : String) : NovaResult :=
  match resp with
  | Except.error e => { status := "error", message := "获取生成结果时出错: " ++ e }
  | Except.ok r =>
    if r.status = "Completed" then
      if r.s3Uri ≠ "" then
        match download_from_s3 s3 r.s3Uri with
        | Except.ok bytes =>
          { status := "completed", message := "视频生成完成", video_data := some bytes }
        | Except.error e =>
          { status := "error", message := "获取生成结果时出错: " ++ e }
      else
        match r.outputData with
        | some v =>
          { status := "completed", message := "视频生成完成", video_data := some v }
        | none => { status := "error", message := "无法获取生成的视频数据" }
    else if r.status = "InProgress" then
      { status := "in_progress", message := "视频正在生成中..." }
    else if r.status = "Failed" then
      { status := "failed", message := "视频生成失败: " ++ r.failureMessage.getD "未知错误" }
    else
      { status := "unknown", message := "未知状态: " ++ r.status }

/-! ## Orchestrator: `backend/video_generator.py` -/

/-- One entry of `active_jobs` (`job_info`, lines 94-106). Optional fields
are the keys added only on completion or failure. Shot dicts are abstracted
to their text. -/
structure JobInfo where
  session_id : String
  job_id : String
  status : String
  created_at : String
  images : List String
  style : String
  category : String
  shots : List String
  images_count : Nat
  shots_count : Nat
  generation_type : String
  completed_at : Option String := none
  video_path : Option String := none
  video_filename : Option String := none
  error_message : Option String := none

deriving instance DecidableEq for JobInfo

/-- `VideoGenerator` state: the in-memory `active_jobs` dict together with
the contents of the persisted `jobs.json` table. -/
structure VGState where
  output_dir : String
  active_jobs : List (String × JobInfo)
  persisted : List (String × JobInfo)

deriving instance DecidableEq for VGState

/-- `VideoGenerator._save_jobs` (lines 42-48): on success the file is
replaced by the current `active_jobs`; any exception is caught, logged and
swallowed, leaving the previously persisted table in place. -/
def save_jobs (ok : Bool) (st : VGState) : VGState :=
  if ok then { st with persisted := st.active_jobs } else st

/-- A result dict returned by the two public operations. `status` and
`message` are present in every branch; the remaining keys only in some. -/
structure OpResult where
  status : String
  message : String
  session_id : Option String := none
  job_id : Option String := none
  shots_count : Option Nat := none
  video_path : Option String := none
  video_filename : Option String := none
  images_count : Option Nat := none
  style : Option String := none
  category : Option String := none
  generation_type : Option String := none
  error_details : Option String := none

deriving instance DecidableEq for OpResult

/-- Collaborator behaviour for one `start_async_video_generation` call:
`os.path.exists`, the outcome of `call_claude_sonnet` (shot texts, or the
text of the exception it raises), the outcome of `start_async_nova_reel`
(the invocation ARN, or the exception text), the generated
`uuid4().hex[:8]`, the current timestamp, and whether the `jobs.json`
write succeeds. -/
structure SubmitEnv where
  fileExists : String → Bool
  claude : Except String (List String)
  nova : Except String String
  uuidHex : String
  nowIso : String
  storeWriteOk : Bool

/-- Outcome of a submit call: the returned dict, the successor state, and
how many external provider calls were made (0 = none, 1 = Claude only,
2 = Claude and Nova Reel). -/
structure SubmitOutcome where
  result : OpResult
  state : VGState
  externalCalls : Nat

deriving instance DecidableEq for SubmitOutcome

deriving instance DecidableEq for Except

/-- `VideoGenerator.start_async_video_generation` (lines 50-129): validate
(empty list, shot ceiling of 8, file existence) before any external call;
then Claude, then Nova Reel; on success store and persist a `started`
record keyed by a fresh `session_` id; any exception is caught and
returned as an `error` dict with the state untouched. -/
def start_async_video_generation (env : SubmitEnv) (st : VGState)
    (images : List String) (style category : String) : SubmitOutcome :=
  if images = [] then
    { result :=
        { status := "error"
          message := "启动多镜头视频生成失败: No images provided"
          error_details := some ("No images provided") }
      state := st, externalCalls := 0 }
  else if 8 < images.length then
    { result :=
        { status := "error"
          message := "启动多镜头视频生成失败: Maximum 8 images allowed for multi-shot video"
          error_details := some ("Maximum 8 images allowed for multi-shot video") }
      state := st, externalCalls := 0 }
  else
    match images.find? (fun i => !(env.fileExists i)) with
    | some missing =>
      { result :=
          { status := "error"
            message := "启动多镜头视频生成失败: Image file not found: " ++ missing
            error_details := some ("Image file not found: " ++ missing) }
        state := st, externalCalls := 0 }
    | none =>
      match env.claude with
      | Except.error e =>
        { result :=
            { status := "error"
              message := "启动多镜头视频生成失败: " ++ e
              error_details := some e }
          state := st, externalCalls := 1 }
      | Except.ok shots =>
        match env.nova with
        | Except.error e =>
          { result :=
              { status := "error"
                message := "启动多镜头视频生成失败: " ++ e
                error_details := some e }
            state := st, externalCalls := 2 }
        | Except.ok job_id =>
          let session_id := "session_" ++ env.uuidHex
          let ji : JobInfo :=
            { session_id := session_id
              job_id := job_id
              status := "started"
              created_at := env.nowIso
              images := images
              style := style
              category := category
              shots := shots
              images_count := images.length
              shots_count := shots.length
              generation_type := "multi_shot" }
          let st1 : VGState :=
            { st with active_jobs := pyDictSet st.active_jobs session_id ji }
          { result :=
              { status := "success"
                message := "多镜头视频生成已开始 (" ++ toString shots.length ++ " 个镜头)"
                session_id := some session_id
                job_id := some job_id
                shots_count := some shots.length }
            state := save_jobs env.storeWriteOk st1
            externalCalls := 2 }

/-- Collaborator behaviour for one `check_async_video_status` call: the
`get_async_invoke` outcome, the S3 bucket the output locator points into,
the two timestamps taken during the call, whether the local artifact write
succeeds (carrying `str(e)` when it does not), and whether the `jobs.json`
write succeeds. -/
structure PollEnv where
  invokeResp : Except String InvokeResponse
  s3 : S3Bucket
  nowStamp : String
  nowIso : String
  artifactWriteOk : Bool
  artifactWriteErr : String
  storeWriteOk : Bool

deriving instance DecidableEq for PollEnv

/-- Outcome of a poll call: the returned dict, the successor state, and how
many `get_async_nova_reel_result` (provider status) calls were made. -/
structure PollOutcome where
  result : OpResult
  state : VGState
  statusCalls : Nat

deriving instance DecidableEq for PollOutcome

/-- `VideoGenerator.check_async_video_status` (lines 131-216): unknown
session → error dict; otherwise one provider status call, then the branch
on its `status` field. The artifact is written before the record is
mutated, so a failing write surfaces as an `error` dict with the record
untouched; record mutations are followed by a (failure-swallowing)
`_save_jobs`. -/
def check_async_video_status (env : PollEnv) (st : VGState)
    (session_id : String) : PollOutcome :=
  match pyGet st.active_jobs session_id with
  | none =>
    { result := { status := "error", message := "未找到对应的生成任务" }
      state := st, statusCalls := 0 }
  | some job_info =>
    let result := get_async_nova_reel_result env.invokeResp env.s3 job_info.job_id
    if result.status = "completed" then
      let video_filename := "video_" ++ session_id ++ "_" ++ env.nowStamp ++ ".mp4"
      let video_path := st.output_dir ++ "/" ++ video_filename
      if env.artifactWriteOk then
        let ji' : JobInfo :=
          { job_info with
            status := "completed"
            completed_at := some env.nowIso
            video_path := some video_path
            video_filename := some video_filename }
        let st1 : VGState :=
          { st with active_jobs := pyDictSet st.active_jobs session_id ji' }
        { result :=
            { status := "completed"
              message := "多镜头视频生成完成"
              video_path := some video_path
              video_filename := some video_filename
              shots_count := some job_info.shots_count
              images_count := some job_info.images_count
              style := some job_info.style
              category := some job_info.category
              generation_type := some job_info.generation_type }
          state := save_jobs env.storeWriteOk st1
          statusCalls := 1 }
      else
        { result :=
            { status := "error"
              message := "检查生成状态时出错: " ++ env.artifactWriteErr
              error_details := some env.artifactWriteErr }
          state := st, statusCalls := 1 }
    else if result.status = "in_progress" then
      let ji' : JobInfo := { job_info with status := "in_progress" }
      { result := { status := "in_progress", message := result.message }
        state :=
          save_jobs env.storeWriteOk
            { st with active_jobs := pyDictSet st.active_jobs session_id ji' }
        statusCalls := 1 }
    else if result.status = "failed" then
      let ji' : JobInfo :=
        { job_info with status := "failed", error_message := some result.message }
      { result := { status := "failed", message := result.message }
        state :=
          save_jobs env.storeWriteOk
            { st with active_jobs := pyDictSet st.active_jobs session_id ji' }
        statusCalls := 1 }
    else
      { result := { status := "unknown", message := result.message }
        state := st, statusCalls := 1 }

/-- Whether an `Except` value is the error case. -/
def exceptFailed {α β : Type} : Except α β → Bool
  | Except.error _ => true
  | Except.ok _ => false

/-! ## Concrete sample data used by closed counterexample and witness
theorems. -/

/-- A job record in the given state, as created by a successful submit. -/
def sampleJob (s : String) : JobInfo :=
  { session_id := "s1"
    job_id := "arn1"
    status := s
    created_at := "t0"
    images := ["a.jpg"]
    style := "cinematic"
    category := "nature"
    shots := ["shot one"]
    images_count := 1
    shots_count := 1
    generation_type := "multi_shot" }

/-- An orchestrator state holding the single session `s1` in the given
job state, persisted consistently. -/
def sampleState (s : String) : VGState :=
  { output_dir := "generated_videos"
    active_jobs := [("s1", sampleJob s)]
    persisted := [("s1", sampleJob s)] }

/-- A provider response reporting completion with an output locator. -/
def respDone : InvokeResponse :=
  { status := "Completed", s3Uri := "s3://bkt/up/1", outputData := none, failureMessage := none }

/-- A provider response with an unrecognized status value. -/
def respOdd : InvokeResponse :=
  { status := "Bizarre", s3Uri := "", outputData := none, failureMessage := none }

/-- A poll environment in which the provider reports completion and the
conventional `output.mp4` object exists under the job's output locator. -/
def envDone (artifactOk storeOk : Bool) : PollEnv :=
  { invokeResp := Except.ok respDone
    s3 := { objects := [("up/1/output.mp4", "BYTES")] }
    nowStamp := "20260101_000000"
    nowIso := "t1"
    artifactWriteOk := artifactOk
    artifactWriteErr := "disk full"
    storeWriteOk := storeOk }

/-- A poll environment in which the provider returns an unrecognized
status payload. -/
def envOdd : PollEnv :=
  { invokeResp := Except.ok respOdd
    s3 := { objects := [] }
    nowStamp := "20260101_000000"
    nowIso := "t1"
    artifactWriteOk := true
    artifactWriteErr := ""
    storeWriteOk := true }

/-- A poll environment in which the provider reports completion but the
output locator points into an empty namespace, so the artifact fetch
fails. -/
def envEmptyNs : PollEnv :=
  { invokeResp := Except.ok respDone
    s3 := { objects := [] }
    nowStamp := "20260101_000000"
    nowIso := "t1"
    artifactWriteOk := true
    artifactWriteErr := ""
    storeWriteOk := true }

/-- A submit environment in which every collaborator succeeds. -/
def envSubmitOk : SubmitEnv :=
  { fileExists := fun _ => true
    claude := Except.ok ["shot one", "shot two"]
    nova := Except.ok "arn1"
    uuidHex := "abcd1234"
    nowIso := "t0"
    storeWriteOk := true }

/-- An empty orchestrator state. -/
def emptyState : VGState :=
  { output_dir := "generated_videos", active_jobs := [], persisted := [] }

/-- A selection of three images in insertion order, at the default
capacity of 8; this is the reachable state after `add(a); add(b); add(c)`. -/
def sel3 : ImageSelectionManager :=
  { max_selections := 8
    selected_images := ["a.jpg", "b.jpg", "c.jpg"]
    selection_order := [("a.jpg", 1), ("b.jpg", 2), ("c.jpg", 3)]
    next_order := 4 }

/-- A full selection of two images at capacity 2. -/
def selFull : ImageSelectionManager :=
  { max_selections := 2
    selected_images := ["a.jpg", "b.jpg"]
    selection_order := [("a.jpg", 1), ("b.jpg", 2)]
    next_order := 3 }

/-! ## Dictionary lemmas -/

@[simp]
lemma pyGet_nil {β : Type} (k : String) : pyGet ([] : List (String × β)) k = none :=
  rfl

@[simp]
lemma pyGet_cons {β : Type} (kv : String × β) (d : List (String × β)) (k : String) :
    pyGet (kv :: d) k = if kv.1 = k then some kv.2 else pyGet d k :=
  rfl

lemma pyGet_append_of_none {β : Type} {d₁ : List (String × β)} {k : String}
    (d₂ : List (String × β)) (h : pyGet d₁ k = none) :
    pyGet (d₁ ++ d₂) k = pyGet d₂ k := by
  induction d₁ with
  | nil => simp
  | cons kv rest ih =>
    by_cases hk : kv.1 = k
    · simp [hk] at h
    · simp only [pyGet_cons, hk, if_neg, List.cons_append] at h ⊢
      exact ih h

lemma pyGet_append_of_some {β : Type} {d₁ : List (String × β)} {k : String} {v : β}
    (d₂ : List (String × β)) (h : pyGet d₁ k = some v) :
    pyGet (d₁ ++ d₂) k = some v := by
  induction d₁ with
  | nil => simp at h
  | cons kv rest ih =>
    by_cases hk : kv.1 = k
    · simp [hk] at h ⊢
      exact h
    · simp only [pyGet_cons, hk, if_neg, List.cons_append] at h ⊢
      exact ih h

lemma pyGet_isSome_of_mem_keys {β : Type} {d : List (String × β)} {k : String}
    (h : k ∈ d.map Prod.fst) : (pyGet d k).isSome := by
  induction d with
  | nil => simp at h
  | cons kv rest ih =>
    by_cases hk : kv.1 = k
    · simp [hk]
    · simp only [List.map_cons, List.mem_cons] at h
      rcases h with h | h

      · exact absurd h.symm hk
      · simp only [pyGet_cons, hk, if_neg]
        exact ih h

lemma mem_keys_of_pyGet_isSome {β : Type} {d : List (String × β)} {k : String}
    (h : (pyGet d k).isSome) : k ∈ d.map Prod.fst := by
  induction d with
  | nil => simp [pyGet] at h
  | cons kv rest ih =>
    by_cases hk : kv.1 = k
    · simp [hk]
    · simp only [pyGet_cons, hk, if_neg] at h
      simp [ih h]

lemma pyGet_eq_none_of_not_mem_keys {β : Type} {d : List (String × β)} {k : String}
    (h : k ∉ d.map Prod.fst) : pyGet d k = none := by
  cases hg : pyGet d k with
  | none => rfl
  | some v =>
    exact absurd (mem_keys_of_pyGet_isSome (by simp [hg])) h

lemma pyGet_of_mem_nodup {β : Type} {d : List (String × β)} {kv : String × β}
    (hnd : (d.map Prod.fst).Nodup) (hkv : kv ∈ d) : pyGet d kv.1 = some kv.2 := by
  induction d with
  | nil => simp at hkv
  | cons hd rest ih =>
    simp only [List.map_cons, List.nodup_cons] at hnd
    rcases List.mem_cons.mp hkv with h | h
    · subst h
      simp
    · have hne : hd.1 ≠ kv.1 := by
        intro he
        exact hnd.1 (he ▸ List.mem_map_of_mem Prod.fst h)
      simp only [pyGet_cons, hne, if_neg]
      exact ih hnd.2 h

lemma pyDictSet_of_isSome {β : Type} {d : List (String × β)} {k : String}
    (v : β) (h : (pyGet d k).isSome) :
    pyDictSet d k v = d.map (fun kv => if kv.1 = k then (k, v) else kv) := by
  simp [pyDictSet, h]

lemma pyDictSet_of_none {β : Type} {d : List (String × β)} {k : String}
    (v : β) (h : pyGet d k = none) :
    pyDictSet d k v = d ++ [(k, v)] := by
  simp [pyDictSet, h]

lemma pyGet_map_update_self {β : Type} {d : List (String × β)} {k : String}
    (v : β) (h : (pyGet d k).isSome) :
    pyGet (d.map (fun kv => if kv.1 = k then (k, v) else kv)) k = some v := by
  induction d with
  | nil => simp [pyGet] at h
  | cons kv' rest ih =>
    by_cases hk : kv'.1 = k
    · simp [hk]
    · rw [pyGet_cons, if_neg hk] at h
      rw [List.map_cons, pyGet_cons]
      have he : (if kv'.1 = k then (k, v) else kv') = kv' := if_neg hk
      rw [he, if_neg hk]
      exact ih h

lemma pyGet_pyDictSet_self {β : Type} {d : List (String × β)} {k : String}
    (v : β) (h : (pyGet d k).isSome) :
    pyGet (pyDictSet d k v) k = some v := by
  rw [pyDictSet_of_isSome v h]
  exact pyGet_map_update_self v h

/-! ## `ranksFrom` lemmas -/

@[simp]
lemma ranksFrom_nil (n : Nat) : ranksFrom n [] = [] :=
  rfl

@[simp]
lemma ranksFrom_cons (n : Nat) (p : String) (l : List String) :
    ranksFrom n (p :: l) = (p, n) :: ranksFrom (n + 1) l :=
  rfl

lemma ranksFrom_append (a b : List String) :
    ∀ n, ranksFrom n (a ++ b) = ranksFrom n a ++ ranksFrom (n + a.length) b := by
  induction a with
  | nil => intro n; simp
  | cons p rest ih =>
    intro n
    simp only [List.cons_append, ranksFrom_cons, List.length_cons]
    rw [ih (n + 1)]
    have hx : n + 1 + rest.length = n + (rest.length + 1) := by omega
    rw [hx]

lemma keys_ranksFrom (l : List String) : ∀ n, (ranksFrom n l).map Prod.fst = l := by
  induction l with
  | nil => intro n; simp
  | cons p rest ih => intro n; simp [ih]

lemma snds_ranksFrom (l : List String) :
    ∀ n, (ranksFrom n l).map Prod.snd = List.range' n l.length := by
  induction l with
  | nil => intro n; simp
  | cons p rest ih =>
    intro n
    simp [List.range', ih]

lemma length_ranksFrom (l : List String) (n : Nat) :
    (ranksFrom n l).length = l.length := by
  have := congrArg List.length (keys_ranksFrom l n)
  simpa using this

lemma pyGet_ranksFrom_of_not_mem {p : String} {l : List String} (h : p ∉ l) (n : Nat) :
    pyGet (ranksFrom n l) p = none := by
  apply pyGet_eq_none_of_not_mem_keys
  rw [keys_ranksFrom]
  exact h

lemma pyGet_ranksFrom_middle {p : String} {l₁ : List String} (l₂ : List String)
    (h : p ∉ l₁) : ∀ n, pyGet (ranksFrom n (l₁ ++ p :: l₂)) p = some (n + l₁.length) := by
  induction l₁ with
  | nil => intro n; simp
  | cons q rest ih =>
    intro n
    have hq : q ≠ p := by
      intro he
      exact h (he ▸ List.mem_cons_self q rest)
    rw [List.cons_append, ranksFrom_cons, pyGet_cons,
      if_neg (show ¬((q, n).1 = p) from hq),
      ih (fun hm => h (List.mem_cons_of_mem q hm)) (n + 1)]
    simp only [List.length_cons, Option.some.injEq]
    omega

lemma pyGet_ranksFrom_isSome {q : String} {l : List String} (h : q ∈ l) (n : Nat) :
    (pyGet (ranksFrom n l) q).isSome := by
  apply pyGet_isSome_of_mem_keys
  rw [keys_ranksFrom]
  exact h

@[simp]
lemma pyDictErase_cons {β : Type} (kv : String × β) (d : List (String × β)) (k : String) :
    pyDictErase (kv :: d) k = if kv.1 = k then d else kv :: pyDictErase d k :=
  rfl

@[simp]
lemma pyListRemove_cons (q : String) (l : List String) (p : String) :
    pyListRemove (q :: l) p = if q = p then l else q :: pyListRemove l p :=
  rfl

lemma pyDictErase_ranksFrom {p : String} {l₁ : List String} (l₂ : List String)
    (h : p ∉ l₁) :
    ∀ n, pyDictErase (ranksFrom n (l₁ ++ p :: l₂)) p =
      ranksFrom n l₁ ++ ranksFrom (n + l₁.length + 1) l₂ := by
  induction l₁ with
  | nil => intro n; simp [pyDictErase]
  | cons q rest ih =>
    intro n
    have hq : q ≠ p := by
      intro he
      exact h (he ▸ List.mem_cons_self q rest)
    rw [List.cons_append, ranksFrom_cons, pyDictErase_cons,
      if_neg (show ¬((q, n).1 = p) from hq),
      ih (fun hm => h (List.mem_cons_of_mem q hm)) (n + 1)]
    rw [ranksFrom_cons, List.cons_append, List.length_cons]
    have hx : n + 1 + rest.length + 1 = n + (rest.length + 1) + 1 := by omega
    rw [hx]

lemma pyListRemove_append {p : String} {l₁ : List String} (l₂ : List String)
    (h : p ∉ l₁) : pyListRemove (l₁ ++ p :: l₂) p = l₁ ++ l₂ := by
  induction l₁ with
  | nil => simp [pyListRemove]
  | cons q rest ih =>
    have hq : q ≠ p := by
      intro he
      exact h (he ▸ List.mem_cons_self q rest)
    rw [List.cons_append, pyListRemove_cons, if_neg hq,
      ih (fun hm => h (List.mem_cons_of_mem q hm)), List.cons_append]

/-! ## The re-ranking loop -/

@[simp]
lemma rerankLoop_nil (d : List (String × Nat)) (r : Nat) :
    rerankLoop [] d r = (true, d) :=
  rfl

lemma rerankLoop_cons_some {d : List (String × Nat)} {q : String} {v : Nat}
    (rest : List String) (r : Nat) (h : pyGet d q = some v) :
    rerankLoop (q :: rest) d r =
      rerankLoop rest (if r < v then pyDictSet d q (v - 1) else d) r := by
  simp [rerankLoop, h]

lemma keys_map_of_fst_eq (d : List (String × Nat))
    (f : String × Nat → String × Nat) (h : ∀ kv, (f kv).1 = kv.1) :
    (d.map f).map Prod.fst = d.map Prod.fst := by
  rw [List.map_map]
  exact List.map_congr_left (fun kv _ => h kv)

lemma rerankLoop_spec (todo : List String) (r : Nat) :
    ∀ d : List (String × Nat), (d.map Prod.fst).Nodup → todo.Nodup →
      (∀ q ∈ todo, q ∈ d.map Prod.fst) →
      rerankLoop todo d r =
        (true,
          d.map (fun kv => if kv.1 ∈ todo ∧ r < kv.2 then (kv.1, kv.2 - 1) else kv)) := by
  induction todo with
  | nil =>
    intro d _ _ _
    simp
  | cons q rest ih =>
    intro d hnd htodo hmem
    have hqmem : q ∈ d.map Prod.fst := hmem q (List.mem_cons_self q rest)
    have hsome : (pyGet d q).isSome := pyGet_isSome_of_mem_keys hqmem
    obtain ⟨v, hv⟩ := Option.isSome_iff_exists.mp hsome
    have hqrest : q ∉ rest := (List.nodup_cons.mp htodo).1
    have hrest : rest.Nodup := (List.nodup_cons.mp htodo).2
    have hd1eq : (if r < v then pyDictSet d q (v - 1) else d) =
        d.map (fun kv => if kv.1 = q ∧ r < kv.2 then (kv.1, kv.2 - 1) else kv) := by
      by_cases hrv : r < v
      · rw [if_pos hrv, pyDictSet_of_isSome _ (by simp [hv])]
        apply List.map_congr_left
        intro kv hkv
        by_cases hk : kv.1 = q
        · have hkv2 : kv.2 = v := by
            have hx : pyGet d q = some kv.2 := by
              rw [← hk]
              exact pyGet_of_mem_nodup hnd hkv
            rw [hv] at hx
            exact (Option.some.inj hx).symm
          rw [if_pos hk, if_pos ⟨hk, by omega⟩, hk, hkv2]
        · rw [if_neg hk, if_neg (fun hc => hk hc.1)]
      · rw [if_neg hrv]
        have hpt : ∀ kv ∈ d,
            (if kv.1 = q ∧ r < kv.2 then (kv.1, kv.2 - 1) else kv) = kv := by
          intro kv hkv
          by_cases hk : kv.1 = q
          · have hkv2 : kv.2 = v := by
              have hx : pyGet d q = some kv.2 := by
                rw [← hk]
                exact pyGet_of_mem_nodup hnd hkv
              rw [hv] at hx
              exact (Option.some.inj hx).symm
            rw [if_neg (fun hc => hrv (hkv2 ▸ hc.2))]
          · rw [if_neg (fun hc => hk hc.1)]
        calc d = d.map id := (List.map_id d).symm
          _ = d.map (fun kv => if kv.1 = q ∧ r < kv.2 then (kv.1, kv.2 - 1) else kv) :=
            List.map_congr_left (fun kv hkv => ((hpt kv hkv).symm : _))
    rw [rerankLoop_cons_some rest r hv, hd1eq]
    have hkeys :
        ((d.map (fun kv => if kv.1 = q ∧ r < kv.2 then (kv.1, kv.2 - 1) else kv)).map
          Prod.fst) = d.map Prod.fst := by
      apply keys_map_of_fst_eq
      intro kv
      by_cases hc : kv.1 = q ∧ r < kv.2
      · rw [if_pos hc]
      · rw [if_neg hc]
    rw [ih _ (by rw [hkeys]; exact hnd) hrest
      (fun x hx => by rw [hkeys]; exact hmem x (List.mem_cons_of_mem q hx))]
    apply congrArg (Prod.mk true)
    rw [List.map_map]
    apply List.map_congr_left
    intro kv hkv
    simp only [Function.comp_apply]
    by_cases hk : kv.1 = q <;> by_cases hrv2 : r < kv.2 <;>
      simp [hk, hrv2, hqrest, List.mem_cons]

/-- Ranks at or below the removed rank are untouched by the decrement map. -/
lemma ranksFrom_map_id (todo : List String) (r : Nat) (l : List String) :
    ∀ n, n + l.length ≤ r + 1 →
      (ranksFrom n l).map
          (fun kv => if kv.1 ∈ todo ∧ r < kv.2 then (kv.1, kv.2 - 1) else kv) =
        ranksFrom n l := by
  induction l with
  | nil => intro n _; simp
  | cons q rest ih =>
    intro n hle
    have hrn : ¬ r < n := by
      simp only [List.length_cons] at hle
      omega
    rw [ranksFrom_cons, List.map_cons, if_neg (fun hc => hrn hc.2)]
    rw [ih (n + 1) (by simp only [List.length_cons] at hle; omega)]

/-- Ranks above the removed rank are all decremented by one. -/
lemma ranksFrom_map_dec (todo : List String) (r : Nat) (l : List String) :
    ∀ n, (∀ q ∈ l, q ∈ todo) → r < n →
      (ranksFrom n l).map
          (fun kv => if kv.1 ∈ todo ∧ r < kv.2 then (kv.1, kv.2 - 1) else kv) =
        ranksFrom (n - 1) l := by
  induction l with
  | nil => intro n _ _; simp
  | cons q rest ih =>
    intro n hsub hrn
    rw [ranksFrom_cons, List.map_cons,
      if_pos (⟨hsub q (List.mem_cons_self q rest), hrn⟩ :
        (q, n).1 ∈ todo ∧ r < (q, n).2)]
    rw [ih (n + 1) (fun x hx => hsub x (List.mem_cons_of_mem q hx)) (by omega)]
    have h1 : n - 1 + 1 = n := by omega
    have h2 : n + 1 - 1 = n := by omega
    rw [show ranksFrom (n - 1) (q :: rest) = (q, n - 1) :: ranksFrom (n - 1 + 1) rest
      from rfl]
    rw [h1, h2]

/-! ## Characterization of `remove_selection` on reachable states -/

lemma remove_selection_eq (m : ImageSelectionManager) (p : String)
    (l₁ l₂ : List String) (hInv : Inv m)
    (hsplit : m.selected_images = l₁ ++ p :: l₂) (hp₁ : p ∉ l₁) :
    remove_selection m p =
      ((true, "已取消选择，剩余" ++ toString (l₁ ++ l₂).length ++ "张图片"),
        { m with
          selected_images := l₁ ++ l₂
          selection_order := ranksFrom 1 (l₁ ++ l₂)
          next_order := (l₁ ++ l₂).length + 1 }) := by
  obtain ⟨hnd, hord, hnext, hcap⟩ := hInv
  have hndsplit : (l₁ ++ p :: l₂).Nodup := hsplit ▸ hnd
  have h₁ : l₁.Nodup := (List.nodup_append.mp hndsplit).1
  have h₂ : (p :: l₂).Nodup := (List.nodup_append.mp hndsplit).2.1
  have hdisj : l₁.Disjoint (p :: l₂) := (List.nodup_append.mp hndsplit).2.2
  have hp₂ : p ∉ l₂ := (List.nodup_cons.mp h₂).1
  have h₂' : l₂.Nodup := (List.nodup_cons.mp h₂).2
  have hnd12 : (l₁ ++ l₂).Nodup :=
    List.nodup_append.mpr
      ⟨h₁, h₂', fun {a} ha hb => hdisj ha (List.mem_cons_of_mem p hb)⟩
  have hget : pyGet m.selection_order p = some (1 + l₁.length) := by
    rw [hord, hsplit]
    exact pyGet_ranksFrom_middle l₂ hp₁ 1
  have hmem : p ∈ m.selected_images := by
    rw [hsplit]
    exact List.mem_append_right l₁ (List.mem_cons_self p l₂)
  have himgs : pyListRemove m.selected_images p = l₁ ++ l₂ := by
    rw [hsplit]
    exact pyListRemove_append l₂ hp₁
  have hd : pyDictErase m.selection_order p =
      ranksFrom 1 l₁ ++ ranksFrom (1 + l₁.length + 1) l₂ := by
    rw [hord, hsplit]
    exact pyDictErase_ranksFrom l₂ hp₁ 1
  have hkeys :
      (ranksFrom 1 l₁ ++ ranksFrom (1 + l₁.length + 1) l₂).map Prod.fst = l₁ ++ l₂ := by
    rw [List.map_append, keys_ranksFrom, keys_ranksFrom]
  have hloop :
      rerankLoop (l₁ ++ l₂) (ranksFrom 1 l₁ ++ ranksFrom (1 + l₁.length + 1) l₂)
        (1 + l₁.length) = (true, ranksFrom 1 (l₁ ++ l₂)) := by
    rw [rerankLoop_spec (l₁ ++ l₂) (1 + l₁.length) _
      (by rw [hkeys]; exact hnd12) hnd12 (by rw [hkeys]; exact fun q hq => hq)]
    apply congrArg (Prod.mk true)
    rw [List.map_append,
      ranksFrom_map_id (l₁ ++ l₂) (1 + l₁.length) l₁ 1 (by omega),
      ranksFrom_map_dec (l₁ ++ l₂) (1 + l₁.length) l₂ (1 + l₁.length + 1)
        (fun q hq => List.mem_append_right l₁ hq) (by omega)]
    have hx : 1 + l₁.length + 1 - 1 = 1 + l₁.length := by omega
    rw [hx, ← ranksFrom_append]
  simp only [remove_selection, hget, hmem, if_pos, himgs, hd, hloop]

lemma remove_selection_absent (m : ImageSelectionManager) (p : String)
    (hInv : Inv m) (hp : p ∉ m.selected_images) :
    remove_selection m p = ((false, "图片未被选择"), m) := by
  have hget : pyGet m.selection_order p = none := by
    rw [hInv.2.1]
    exact pyGet_ranksFrom_of_not_mem hp 1
  simp [remove_selection, hget]

/-- Split a member off a `Nodup` list, recording its absence from both
sides. -/
lemma nodup_split {p : String} {l : List String} (hnd : l.Nodup) (hp : p ∈ l) :
    ∃ l₁ l₂, l = l₁ ++ p :: l₂ ∧ p ∉ l₁ ∧ p ∉ l₂ := by
  obtain ⟨l₁, l₂, hsplit⟩ := List.append_of_mem hp
  have hnd' : (l₁ ++ p :: l₂).Nodup := hsplit ▸ hnd
  have hdisj := (List.nodup_append.mp hnd').2.2
  have hp₁ : p ∉ l₁ := fun hm => hdisj hm (List.mem_cons_self p l₂)
  have hp₂ : p ∉ l₂ := (List.nodup_cons.mp (List.nodup_append.mp hnd').2.1).1
  exact ⟨l₁, l₂, hsplit, hp₁, hp₂⟩

/-! ## Invariant preservation -/

lemma Inv_init (n : Nat) : Inv (ImageSelectionManager.init n) := by
  refine ⟨List.nodup_nil, rfl, rfl, ?_⟩
  simp [ImageSelectionManager.init]

lemma Inv_add (m : ImageSelectionManager) (p : String) (hInv : Inv m) :
    Inv (add_selection m p).2 := by
  obtain ⟨hnd, hord, hnext, hcap⟩ := hInv
  by_cases hfull : m.max_selections ≤ m.selected_images.length
  · simp only [add_selection, hfull, if_pos]
    exact ⟨hnd, hord, hnext, hcap⟩
  · by_cases hsel : (pyGet m.selection_order p).isSome
    · simp only [add_selection, hfull, if_neg, not_false_iff, hsel, if_pos]
      exact ⟨hnd, hord, hnext, hcap⟩
    · have hget : pyGet m.selection_order p = none :=
        Option.not_isSome_iff_eq_none.mp hsel
      have hpnot : p ∉ m.selected_images := by
        intro hm
        apply hsel
        rw [hord]
        exact pyGet_ranksFrom_isSome hm 1
      simp only [add_selection, hfull, if_neg, not_false_iff, hsel, hget]
      refine ⟨?_, ?_, ?_, ?_⟩
      · exact List.nodup_append.mpr
          ⟨hnd, List.nodup_singleton p, by
            intro a ha hb
            rw [List.mem_singleton] at hb
            exact hpnot (hb ▸ ha)⟩
      · show pyDictSet m.selection_order p m.next_order =
          ranksFrom 1 (m.selected_images ++ [p])
        rw [pyDictSet_of_none _ hget, hord, hnext, ranksFrom_append]
        simp [Nat.add_comm]
      · show m.next_order + 1 = (m.selected_images ++ [p]).length + 1
        rw [hnext, List.length_append, List.length_singleton]
      · show (m.selected_images ++ [p]).length ≤ m.max_selections
        rw [List.length_append, List.length_singleton]
        omega

lemma Inv_remove (m : ImageSelectionManager) (p : String) (hInv : Inv m) :
    Inv (remove_selection m p).2 := by
  by_cases hp : p ∈ m.selected_images
  · obtain ⟨l₁, l₂, hsplit, hp₁, hp₂⟩ := nodup_split hInv.1 hp
    rw [remove_selection_eq m p l₁ l₂ hInv hsplit hp₁]
    have hnd12 : (l₁ ++ l₂).Nodup := by
      have hnd' : (l₁ ++ p :: l₂).Nodup := hsplit ▸ hInv.1
      have hsub : (l₁ ++ l₂).Sublist (l₁ ++ p :: l₂) :=
        List.Sublist.append_left (List.sublist_cons_self p l₂) l₁
      exact hnd'.sublist hsub
    refine ⟨hnd12, rfl, rfl, ?_⟩
    have hlen := congrArg List.length hsplit
    simp only [List.length_append, List.length_cons] at hlen
    have hcap := hInv.2.2.2
    simp only [List.length_append]
    omega
  · rw [remove_selection_absent m p hInv hp]
    exact hInv

lemma Inv_clear (m : ImageSelectionManager) : Inv (clear_all m).2 := by
  refine ⟨List.nodup_nil, rfl, rfl, ?_⟩
  simp [clear_all]

/-- Ranks along the selection list, in order, are `n, n+1, …`. -/
lemma map_pyGet_ranksFrom (l : List String) :
    ∀ n, l.Nodup →
      l.map (pyGet (ranksFrom n l)) = (List.range' n l.length).map some := by
  induction l with
  | nil => intro n _; simp
  | cons p rest ih =>
    intro n hnd
    obtain ⟨hp, hrest⟩ := List.nodup_cons.mp hnd
    rw [List.map_cons]
    have hhead : pyGet (ranksFrom n (p :: rest)) p = some n := by
      rw [ranksFrom_cons, pyGet_cons, if_pos rfl]
    have htail : rest.map (pyGet (ranksFrom n (p :: rest))) =
        rest.map (pyGet (ranksFrom (n + 1) rest)) := by
      apply List.map_congr_left
      intro q hq
      have hne : p ≠ q := fun he => hp (he ▸ hq)
      rw [ranksFrom_cons, pyGet_cons, if_neg (show ¬((p, n).1 = q) from hne)]
    rw [hhead, htail, ih (n + 1) hrest]
    have hr : List.range' n (p :: rest).length = n :: List.range' (n + 1) rest.length := by
      simp [List.range']
    rw [hr, List.map_cons]

/-! ## S3 download lemmas -/

lemma mem_of_pyGet_some {β : Type} {d : List (String × β)} {k : String} {v : β}
    (h : pyGet d k = some v) : (k, v) ∈ d := by
  induction d with
  | nil => simp at h
  | cons kv rest ih =>
    by_cases hk : kv.1 = k
    · rw [pyGet_cons, if_pos hk] at h
      have : kv = (k, v) := by
        obtain ⟨k1, v1⟩ := kv
        simp only at hk
        simp only [Option.some.injEq] at h
        rw [hk, h]
      exact this ▸ List.mem_cons_self kv rest
    · rw [pyGet_cons, if_neg hk] at h
      exact List.mem_cons_of_mem kv (ih h)

lemma splitOnce_append (a b : List Char) (c : Char) (ha : c ∉ a) :
    splitOnce (a ++ c :: b) c = some (a, b) := by
  induction a with
  | nil => simp [splitOnce]
  | cons x rest ih =>
    have hx : x ≠ c := fun he => ha (he ▸ List.mem_cons_self x rest)
    rw [List.cons_append]
    rw [show splitOnce (x :: (rest ++ c :: b)) c =
      (if x = c then some ([], rest ++ c :: b) else
        match splitOnce (rest ++ c :: b) c with
        | none => none
        | some (a', b') => some (x :: a', b')) from rfl]
    rw [if_neg hx, ih (fun hm => ha (List.mem_cons_of_mem x hm))]

lemma strStartsWith_append (pre x : String) : strStartsWith (pre ++ x) pre = true := by
  unfold strStartsWith
  rw [String.data_append, List.isPrefixOf_iff_prefix]
  exact List.prefix_append _ _

lemma strEndsWith_output_mp4 (key : String) :
    strEndsWith (key ++ "/output.mp4") (".mp4") = true := by
  unfold strEndsWith
  rw [String.data_append, List.isSuffixOf_iff_suffix]
  rw [show "/output.mp4".data = "/output".data ++ ".mp4".data from rfl,
    ← List.append_assoc]
  exact List.suffix_append _ _

lemma download_from_s3_parsed (s3 : S3Bucket) (bucket key : String)
    (hb : ('/' : Char) ∉ bucket.data) :
    download_from_s3 s3 ("s3://" ++ bucket ++ "/" ++ key) =
      (match pyGet s3.objects (key ++ "/output.mp4") with
       | some bytes => Except.ok bytes
       | none =>
         if (s3.objects.filter (fun kv => strStartsWith kv.1 key)).isEmpty then
           Except.error
             ("Failed to download video from S3: No files found in S3 output directory")
         else
           match (s3.objects.filter (fun kv => strStartsWith kv.1 key)).find?
               (fun kv => strEndsWith kv.1 (".mp4")) with
           | some kv => Except.ok kv.2
           | none =>
             Except.error
               ("Failed to download video from S3: No video file (.mp4) found in S3 output directory")) := by
  have hstart : strStartsWith ("s3://" ++ bucket ++ "/" ++ key) ("s3://") = true := by
    rw [String.append_assoc, String.append_assoc]
    exact strStartsWith_append _ _
  have huri : ("s3://" ++ bucket ++ "/" ++ key).data =
      "s3://".data ++ (bucket.data ++ '/' :: key.data) := by
    simp only [String.data_append, List.append_assoc,
      show "/".data = ['/'] from rfl, List.singleton_append]
  have hdrop : ("s3://" ++ bucket ++ "/" ++ key).data.drop 5 =
      bucket.data ++ '/' :: key.data := by
    rw [huri]
    rw [show (5 : Nat) = "s3://".data.length from rfl]
    exact List.drop_left _ _
  have hsplit : splitOnce (("s3://" ++ bucket ++ "/" ++ key).data.drop 5) '/' =
      some (bucket.data, key.data) := by
    rw [hdrop]
    exact splitOnce_append bucket.data key.data '/' hb
  unfold download_from_s3
  rw [hstart, if_neg (show ¬(true = false) by decide), hsplit]

/-- C9: on provider-reported completion, artifact retrieval first tries
the conventional `output.mp4` object under the job's output prefix; if that
object is absent it scans the namespace under the prefix and accepts the
first `.mp4` object; and it raises an error if and only if no object under
the prefix has the `.mp4` extension (in particular a missing primary name
alone is never an error). -/
theorem download_fallback_policy (s3 : S3Bucket) (bucket key : String)
    (hb : ('/' : Char) ∉ bucket.data) :
    (∀ b, pyGet s3.objects (key ++ "/output.mp4") = some b →
      download_from_s3 s3 ("s3://" ++ bucket ++ "/" ++ key) = Except.ok b) ∧
    (pyGet s3.objects (key ++ "/output.mp4") = none →
      ∀ kv, (s3.objects.filter (fun kv => strStartsWith kv.1 key)).find?
          (fun kv => strEndsWith kv.1 (".mp4")) = some kv →
        download_from_s3 s3 ("s3://" ++ bucket ++ "/" ++ key) = Except.ok kv.2) ∧
    (exceptFailed (download_from_s3 s3 ("s3://" ++ bucket ++ "/" ++ key)) = true ↔
      ¬ ∃ kv ∈ s3.objects, strStartsWith kv.1 key = true ∧
        strEndsWith kv.1 (".mp4") = true) := by
  have hDL := download_from_s3_parsed s3 bucket key hb
  refine ⟨?_, ?_, ?_⟩
  · intro b hpb
    rw [hDL, hpb]
  · intro hnone kv hfind
    have hne : ((s3.objects.filter (fun kv => strStartsWith kv.1 key)).isEmpty) = false := by
      cases hE : (s3.objects.filter (fun kv => strStartsWith kv.1 key)).isEmpty
      · rfl
      · rw [List.isEmpty_iff.mp hE] at hfind
        simp at hfind
    rw [hDL, hnone, hne, if_neg (show ¬(false = true) by decide), hfind]
  · rw [hDL]
    cases hpb : pyGet s3.objects (key ++ "/output.mp4") with
    | some b =>
      refine iff_of_false (by simp [exceptFailed]) (fun hno => hno ?_)
      exact ⟨(key ++ "/output.mp4", b), mem_of_pyGet_some hpb,
        strStartsWith_append key "/output.mp4", strEndsWith_output_mp4 key⟩
    | none =>
      cases hE : (s3.objects.filter (fun kv => strStartsWith kv.1 key)).isEmpty with
      | true =>
        rw [if_pos rfl]
        refine iff_of_true rfl ?_
        rintro ⟨kv, hmem, hs, he⟩
        have hfil := List.filter_eq_nil_iff.mp (List.isEmpty_iff.mp hE)
        exact hfil kv hmem hs
      | false =>
        rw [if_neg (show ¬(false = true) by decide)]
        cases hfind : (s3.objects.filter (fun kv => strStartsWith kv.1 key)).find?
            (fun kv => strEndsWith kv.1 (".mp4")) with
        | some kv =>
          refine iff_of_false (by simp [exceptFailed]) (fun hno => hno ?_)
          have hmemf := List.mem_of_find?_eq_some hfind
          have hmem := (List.mem_filter.mp hmemf).1
          have hs := (List.mem_filter.mp hmemf).2
          have he := List.find?_some hfind
          exact ⟨kv, hmem, hs, he⟩
        | none =>
          refine iff_of_true rfl ?_
          rintro ⟨kv, hmem, hs, he⟩
          have hfil := List.find?_eq_none.mp hfind
          exact hfil kv (List.mem_filter.mpr ⟨hmem, hs⟩) he

/-- C9 witness: with the conventional object present it is returned; with
an empty namespace the error cases line up with the iff. -/
theorem download_fallback_policy_witness :
    (('/' : Char) ∉ ("bkt" : String).data) ∧
    ((∀ b, pyGet (envDone true true).s3.objects ("up/1" ++ "/output.mp4") = some b →
      download_from_s3 (envDone true true).s3 ("s3://" ++ "bkt" ++ "/" ++ "up/1") =
        Except.ok b) ∧
    (pyGet (envDone true true).s3.objects ("up/1" ++ "/output.mp4") = none →
      ∀ kv, ((envDone true true).s3.objects.filter
            (fun kv => strStartsWith kv.1 "up/1")).find?
          (fun kv => strEndsWith kv.1 (".mp4")) = some kv →
        download_from_s3 (envDone true true).s3 ("s3://" ++ "bkt" ++ "/" ++ "up/1") =
          Except.ok kv.2) ∧
    (exceptFailed (download_from_s3 (envDone true true).s3
        ("s3://" ++ "bkt" ++ "/" ++ "up/1")) = true ↔
      ¬ ∃ kv ∈ (envDone true true).s3.objects, strStartsWith kv.1 "up/1" = true ∧
        strEndsWith kv.1 (".mp4") = true)) :=
  ⟨by decide, download_fallback_policy (envDone true true).s3 "bkt" "up/1" (by decide)⟩

/-! ## Claim theorems for the selection manager -/

/-- C2: on any reachable selection state, removing a selected item deletes
it and decrements by one the rank of every item ranked after it, so the
remaining ranks are exactly `1..count` with relative order unchanged, the
earlier items keeping their ranks; removing an absent item fails with the
not-selected message and leaves the state unchanged. -/
theorem remove_selection_compacts_ranks (m : ImageSelectionManager) (p : String)
    (hInv : Inv m) :
    (p ∉ m.selected_images → remove_selection m p = ((false, "图片未被选择"), m)) ∧
    (p ∈ m.selected_images →
      (remove_selection m p).1.1 = true ∧
      ∃ l₁ l₂, m.selected_images = l₁ ++ p :: l₂ ∧ p ∉ l₁ ∧ p ∉ l₂ ∧
        pyGet m.selection_order p = some (1 + l₁.length) ∧
        (remove_selection m p).2.selected_images = l₁ ++ l₂ ∧
        (remove_selection m p).2.selection_order.map Prod.snd =
          List.range' 1 (l₁ ++ l₂).length ∧
        Inv (remove_selection m p).2 ∧
        (∀ q ∈ l₁, pyGet (remove_selection m p).2.selection_order q =
          pyGet m.selection_order q) ∧
        (∀ q ∈ l₂, ∃ v, pyGet m.selection_order q = some v ∧ 1 + l₁.length < v ∧
          pyGet (remove_selection m p).2.selection_order q = some (v - 1))) := by
  constructor
  · intro hp
    exact remove_selection_absent m p hInv hp
  · intro hp
    obtain ⟨l₁, l₂, hsplit, hp₁, hp₂⟩ := nodup_split hInv.1 hp
    have heq := remove_selection_eq m p l₁ l₂ hInv hsplit hp₁
    have hnd' : (l₁ ++ p :: l₂).Nodup := hsplit ▸ hInv.1
    have h₂ : (p :: l₂).Nodup := (List.nodup_append.mp hnd').2.1
    have h₂' : l₂.Nodup := (List.nodup_cons.mp h₂).2
    have hdisj := (List.nodup_append.mp hnd').2.2
    refine ⟨by rw [heq], l₁, l₂, hsplit, hp₁, hp₂, ?_, ?_, ?_, ?_, ?_, ?_⟩
    · rw [hInv.2.1, hsplit]
      exact pyGet_ranksFrom_middle l₂ hp₁ 1
    · rw [heq]
    · rw [heq]
      exact snds_ranksFrom (l₁ ++ l₂) 1
    · exact Inv_remove m p hInv
    · intro q hq
      rw [heq]
      show pyGet (ranksFrom 1 (l₁ ++ l₂)) q = pyGet m.selection_order q
      rw [hInv.2.1, hsplit]
      obtain ⟨w, hw⟩ := Option.isSome_iff_exists.mp (pyGet_ranksFrom_isSome hq 1)
      rw [ranksFrom_append l₁ l₂ 1, ranksFrom_append l₁ (p :: l₂) 1,
        pyGet_append_of_some _ hw, pyGet_append_of_some _ hw]
    · intro q hq
      have hql₁ : q ∉ l₁ := fun hm => hdisj hm (List.mem_cons_of_mem p hq)
      have hqp : q ≠ p := fun he => hp₂ (he ▸ hq)
      obtain ⟨a, b, hab, hqa, _hqb⟩ := nodup_split h₂' hq
      have hassoc : l₁ ++ p :: l₂ = (l₁ ++ p :: a) ++ q :: b := by
        rw [hab, ← List.cons_append, ← List.append_assoc]
      have hqleft : q ∉ l₁ ++ p :: a := by
        intro hm
        rcases List.mem_append.mp hm with h | h
        · exact hql₁ h
        · rcases List.mem_cons.mp h with h | h
          · exact hqp h
          · exact hqa h
      have hold : pyGet m.selection_order q = some (1 + (l₁ ++ p :: a).length) := by
        rw [hInv.2.1, hsplit, hassoc]
        exact pyGet_ranksFrom_middle b hqleft 1
      refine ⟨1 + (l₁ ++ p :: a).length, hold, ?_, ?_⟩
      · simp only [List.length_append, List.length_cons]
        omega
      · rw [heq]
        show pyGet (ranksFrom 1 (l₁ ++ l₂)) q = some (1 + (l₁ ++ p :: a).length - 1)
        have hassoc2 : l₁ ++ l₂ = (l₁ ++ a) ++ q :: b := by
          rw [hab, ← List.append_assoc]
        have hqleft2 : q ∉ l₁ ++ a := by
          intro hm
          rcases List.mem_append.mp hm with h | h
          · exact hql₁ h
          · exact hqa h
        rw [hassoc2, pyGet_ranksFrom_middle b hqleft2 1]
        simp only [Option.some.injEq, List.length_append, List.length_cons]
        omega

/-- C2 witness: in the reachable three-image state, removing the second
image compacts the ranks of the remaining two. -/
theorem remove_selection_compacts_ranks_witness :
    Inv sel3 ∧ "b.jpg" ∈ sel3.selected_images ∧
    ((remove_selection sel3 "b.jpg").1.1 = true ∧
      ∃ l₁ l₂, sel3.selected_images = l₁ ++ "b.jpg" :: l₂ ∧
        "b.jpg" ∉ l₁ ∧ "b.jpg" ∉ l₂ ∧
        pyGet sel3.selection_order "b.jpg" = some (1 + l₁.length) ∧
        (remove_selection sel3 "b.jpg").2.selected_images = l₁ ++ l₂ ∧
        (remove_selection sel3 "b.jpg").2.selection_order.map Prod.snd =
          List.range' 1 (l₁ ++ l₂).length ∧
        Inv (remove_selection sel3 "b.jpg").2 ∧
        (∀ q ∈ l₁, pyGet (remove_selection sel3 "b.jpg").2.selection_order q =
          pyGet sel3.selection_order q) ∧
        (∀ q ∈ l₂, ∃ v, pyGet sel3.selection_order q = some v ∧ 1 + l₁.length < v ∧
          pyGet (remove_selection sel3 "b.jpg").2.selection_order q = some (v - 1))) :=
  ⟨by decide, by decide,
    (remove_selection_compacts_ranks sel3 "b.jpg" (by decide)).2 (by decide)⟩

/-- C7: on any reachable state, `add_selection` fails with the capacity
message when the selection is full and with the already-selected message
when the item is present, leaving the state unchanged in both cases;
otherwise it appends the item, assigns it rank `count + 1` (the current
maximum plus one, reported in the returned message), and keeps the rank
sequence contiguous. -/
theorem add_selection_behavior (m : ImageSelectionManager) (p : String)
    (hInv : Inv m) :
    (m.max_selections ≤ m.selected_images.length →
      add_selection m p =
        ((false, "已达到最大选择数量(" ++ toString m.max_selections ++ "张)"), m)) ∧
    ((pyGet m.selection_order p).isSome →
      m.selected_images.length < m.max_selections →
      add_selection m p = ((false, "图片已被选择"), m)) ∧
    (pyGet m.selection_order p = none →
      m.selected_images.length < m.max_selections →
      (add_selection m p).1 =
        (true, "已选择第" ++ toString (m.selected_images.length + 1) ++ "张图片") ∧
      (add_selection m p).2.selected_images = m.selected_images ++ [p] ∧
      pyGet (add_selection m p).2.selection_order p =
        some (m.selected_images.length + 1) ∧
      (add_selection m p).2.selection_order.map Prod.snd =
        List.range' 1 (m.selected_images.length + 1)) := by
  obtain ⟨hnd, hord, hnext, hcap⟩ := hInv
  refine ⟨?_, ?_, ?_⟩
  · intro hfull
    simp only [add_selection, hfull, if_pos]
  · intro hsel hlt
    have hfull : ¬ m.max_selections ≤ m.selected_images.length := by omega
    simp only [add_selection, hfull, if_neg, not_false_iff, hsel, if_pos]
  · intro hget hlt
    have hfull : ¬ m.max_selections ≤ m.selected_images.length := by omega
    have hsel : ¬ (pyGet m.selection_order p).isSome = true := by
      simp [hget]
    have hone : ranksFrom 1 m.selected_images ++ [(p, m.selected_images.length + 1)] =
        ranksFrom 1 (m.selected_images ++ [p]) := by
      rw [ranksFrom_append]
      simp [Nat.add_comm]
    refine ⟨?_, ?_, ?_, ?_⟩
    · simp only [add_selection, hfull, if_neg, not_false_iff, hsel, hget,
        Option.isSome_none, Bool.false_eq_true, if_false]
      rw [hnext]
    · simp only [add_selection, hfull, if_neg, not_false_iff, hsel, hget,
        Option.isSome_none, Bool.false_eq_true, if_false]
    · simp only [add_selection, hfull, if_neg, not_false_iff, hsel, hget,
        Option.isSome_none, Bool.false_eq_true, if_false]
      show pyGet (pyDictSet m.selection_order p m.next_order) p =
        some (m.selected_images.length + 1)
      rw [pyDictSet_of_none _ hget, pyGet_append_of_none _ hget, hnext]
      simp
    · simp only [add_selection, hfull, if_neg, not_false_iff, hsel, hget,
        Option.isSome_none, Bool.false_eq_true, if_false]
      show (pyDictSet m.selection_order p m.next_order).map Prod.snd =
        List.range' 1 (m.selected_images.length + 1)
      rw [pyDictSet_of_none _ hget, hord, hnext, hone, snds_ranksFrom]
      simp

/-- C7 witness: adding a fourth image to the reachable three-image state
succeeds with rank 4; adding to a full selection or re-adding fails. -/
theorem add_selection_behavior_witness :
    Inv sel3 ∧ pyGet sel3.selection_order "d.jpg" = none ∧
    sel3.selected_images.length < sel3.max_selections ∧
    ((add_selection sel3 "d.jpg").1 =
        (true, "已选择第" ++ toString (sel3.selected_images.length + 1) ++ "张图片") ∧
      (add_selection sel3 "d.jpg").2.selected_images =
        sel3.selected_images ++ ["d.jpg"] ∧
      pyGet (add_selection sel3 "d.jpg").2.selection_order "d.jpg" =
        some (sel3.selected_images.length + 1) ∧
      (add_selection sel3 "d.jpg").2.selection_order.map Prod.snd =
        List.range' 1 (sel3.selected_images.length + 1)) ∧
    Inv selFull ∧
    add_selection selFull "c.jpg" =
      ((false, "已达到最大选择数量(" ++ toString selFull.max_selections ++ "张)"), selFull) :=
  ⟨by decide, by decide, by decide,
    (add_selection_behavior sel3 "d.jpg" (by decide)).2.2 (by decide) (by decide),
    by decide,
    (add_selection_behavior selFull "c.jpg" (by decide)).1 (by decide)⟩

/-- C8: the empty initial state satisfies the structural invariant, every
operation (`add_selection`, `remove_selection`, `clear_all`) preserves it,
and on any invariant state the item list and rank dict have equal size,
the ranks in storage order are exactly `1..count`, the capacity bound and
uniqueness hold, and `get_ordered_images` lists the items in ascending
rank order (ranks `1, 2, …` along the returned sequence). -/
theorem selection_invariants_preserved (n : Nat) (m : ImageSelectionManager)
    (p : String) (hInv : Inv m) :
    Inv (ImageSelectionManager.init n) ∧
    Inv (add_selection m p).2 ∧
    Inv (remove_selection m p).2 ∧
    Inv (clear_all m).2 ∧
    m.selection_order.length = m.selected_images.length ∧
    m.selection_order.map Prod.snd = List.range' 1 m.selected_images.length ∧
    m.selected_images.length ≤ m.max_selections ∧
    m.selected_images.Nodup ∧
    get_ordered_images m = m.selected_images ∧
    (get_ordered_images m).map (pyGet m.selection_order) =
      (List.range' 1 m.selected_images.length).map some :=
  ⟨Inv_init n, Inv_add m p hInv, Inv_remove m p hInv, Inv_clear m,
    by rw [hInv.2.1]; exact length_ranksFrom _ 1,
    by rw [hInv.2.1]; exact snds_ranksFrom _ 1,
    hInv.2.2.2, hInv.1, rfl,
    by
      show m.selected_images.map (pyGet m.selection_order) = _
      rw [hInv.2.1]
      exact map_pyGet_ranksFrom m.selected_images 1 hInv.1⟩

/-- C8 witness: the invariant facts hold on the reachable three-image
state and are preserved by removing the middle image. -/
theorem selection_invariants_preserved_witness :
    Inv sel3 ∧
    (Inv (ImageSelectionManager.init 8) ∧
      Inv (add_selection sel3 "b.jpg").2 ∧
      Inv (remove_selection sel3 "b.jpg").2 ∧
      Inv (clear_all sel3).2 ∧
      sel3.selection_order.length = sel3.selected_images.length ∧
      sel3.selection_order.map Prod.snd = List.range' 1 sel3.selected_images.length ∧
      sel3.selected_images.length ≤ sel3.max_selections ∧
      sel3.selected_images.Nodup ∧
      get_ordered_images sel3 = sel3.selected_images ∧
      (get_ordered_images sel3).map (pyGet sel3.selection_order) =
        (List.range' 1 sel3.selected_images.length).map some) :=
  ⟨by decide, selection_invariants_preserved 8 sel3 "b.jpg" (by decide)⟩

/-! ## Orchestrator lemmas -/

lemma data_ne_nil_of_append_left {a : String} (b : String) (h : a.data ≠ []) :
    (a ++ b).data ≠ [] := by
  intro hab
  rw [String.data_append] at hab
  exact h (List.append_eq_nil.mp hab).1

lemma ne_empty_of_data_ne_nil (a : String) (h : a.data ≠ []) : a ≠ "" :=
  fun he => h (by rw [he])

/-- Every branch of the provider status adapter returns a nonempty
human-readable message. -/
lemma nova_message_ne_empty (resp : Except String InvokeResponse) (s3 : S3Bucket)
    (jid : String) : (get_async_nova_reel_result resp s3 jid).message ≠ "" := by
  cases resp with
  | error e =>
    exact ne_empty_of_data_ne_nil ("获取生成结果时出错: " ++ e)
      (data_ne_nil_of_append_left _ (by decide))
  | ok r =>
    simp only [get_async_nova_reel_result]
    by_cases h1 : r.status = "Completed"
    · rw [if_pos h1]
      by_cases h2 : r.s3Uri ≠ ""
      · rw [if_pos h2]
        cases download_from_s3 s3 r.s3Uri with
        | ok bytes => exact ne_empty_of_data_ne_nil ("视频生成完成") (by decide)
        | error e =>
          exact ne_empty_of_data_ne_nil ("获取生成结果时出错: " ++ e)
            (data_ne_nil_of_append_left _ (by decide))
      · rw [if_neg h2]
        cases r.outputData with
        | some v => exact ne_empty_of_data_ne_nil ("视频生成完成") (by decide)
        | none => exact ne_empty_of_data_ne_nil ("无法获取生成的视频数据") (by decide)
    · rw [if_neg h1]
      by_cases h2 : r.status = "InProgress"
      · rw [if_pos h2]
        exact ne_empty_of_data_ne_nil ("视频正在生成中...") (by decide)
      · rw [if_neg h2]
        by_cases h3 : r.status = "Failed"
        · rw [if_pos h3]
          exact ne_empty_of_data_ne_nil ("视频生成失败: " ++ r.failureMessage.getD "未知错误")
            (data_ne_nil_of_append_left _ (by decide))
        · rw [if_neg h3]
          exact ne_empty_of_data_ne_nil ("未知状态: " ++ r.status)
            (data_ne_nil_of_append_left _ (by decide))

/-- When the provider status adapter classifies neither completed nor
in-progress nor failed, `check_async_video_status` takes the `unknown`
branch: result passed through, state untouched, one provider call. -/
lemma check_unknown_branch (env : PollEnv) (st : VGState) (sid : String)
    (ji : JobInfo) (h : pyGet st.active_jobs sid = some ji)
    (h1 : (get_async_nova_reel_result env.invokeResp env.s3 ji.job_id).status ≠ "completed")
    (h2 : (get_async_nova_reel_result env.invokeResp env.s3 ji.job_id).status ≠ "in_progress")
    (h3 : (get_async_nova_reel_result env.invokeResp env.s3 ji.job_id).status ≠ "failed") :
    check_async_video_status env st sid =
      { result :=
          { status := "unknown"
            message :=
              (get_async_nova_reel_result env.invokeResp env.s3 ji.job_id).message }
        state := st
        statusCalls := 1 } := by
  simp only [check_async_video_status, h]
  rw [if_neg h1, if_neg h2, if_neg h3]

/-! ## Claim theorems for the orchestrator -/

/-- C5: when the provider status response is unparseable (the status call
raised) or carries an unexpected status value, poll classifies the result
`unknown`, passes the adapter's message through, leaves the whole state
(in-memory and persisted) unchanged, and made exactly the one status
call. -/
theorem unknown_status_is_noop (env : PollEnv) (st : VGState) (sid : String)
    (ji : JobInfo) (h : pyGet st.active_jobs sid = some ji)
    (hup : (∃ e, env.invokeResp = Except.error e) ∨
      (∃ r, env.invokeResp = Except.ok r ∧ r.status ≠ "Completed" ∧
        r.status ≠ "InProgress" ∧ r.status ≠ "Failed")) :
    (check_async_video_status env st sid).result.status = "unknown" ∧
    (check_async_video_status env st sid).result.message =
      (get_async_nova_reel_result env.invokeResp env.s3 ji.job_id).message ∧
    (check_async_video_status env st sid).state = st ∧
    (check_async_video_status env st sid).statusCalls = 1 := by
  have hsu : (get_async_nova_reel_result env.invokeResp env.s3 ji.job_id).status = "error" ∨
      (get_async_nova_reel_result env.invokeResp env.s3 ji.job_id).status = "unknown" := by
    rcases hup with ⟨e, he⟩ | ⟨r, hr, h1, h2, h3⟩
    · left
      rw [he]
      rfl
    · right
      rw [hr]
      simp only [get_async_nova_reel_result]
      rw [if_neg h1, if_neg h2, if_neg h3]
  have h1 : (get_async_nova_reel_result env.invokeResp env.s3 ji.job_id).status ≠ "completed" := by
    rcases hsu with hx | hx <;> rw [hx] <;> decide
  have h2 : (get_async_nova_reel_result env.invokeResp env.s3 ji.job_id).status ≠ "in_progress" := by
    rcases hsu with hx | hx <;> rw [hx] <;> decide
  have h3 : (get_async_nova_reel_result env.invokeResp env.s3 ji.job_id).status ≠ "failed" := by
    rcases hsu with hx | hx <;> rw [hx] <;> decide
  have hcheck := check_unknown_branch env st sid ji h h1 h2 h3
  exact ⟨by rw [hcheck], by rw [hcheck], by rw [hcheck], by rw [hcheck]⟩

/-- C5 witness: an unrecognized provider status on a known in-progress
session yields `unknown` and changes nothing. -/
theorem unknown_status_is_noop_witness :
    pyGet (sampleState "in_progress").active_jobs "s1" =
      some (sampleJob "in_progress") ∧
    envOdd.invokeResp = Except.ok respOdd ∧
    ((check_async_video_status envOdd (sampleState "in_progress") "s1").result.status = "unknown" ∧
      (check_async_video_status envOdd (sampleState "in_progress") "s1").result.message =
        (get_async_nova_reel_result envOdd.invokeResp envOdd.s3
          (sampleJob "in_progress").job_id).message ∧
      (check_async_video_status envOdd (sampleState "in_progress") "s1").state =
        sampleState "in_progress" ∧
      (check_async_video_status envOdd (sampleState "in_progress") "s1").statusCalls = 1) :=
  ⟨by decide, by decide,
    unknown_status_is_noop envOdd (sampleState "in_progress") "s1"
      (sampleJob "in_progress") (by decide)
      (Or.inr ⟨respOdd, by decide, by decide, by decide, by decide⟩)⟩

/-- C4: when the provider reports completion but the artifact fetch from
the output locator fails, poll does not advance the record: the in-memory
and persisted state are unchanged (the record stays `in_progress`), the
fetch failure is surfaced to this caller in the returned message (under
the transient `unknown` classification), and a subsequent poll in an
environment where the fetch succeeds completes the job. -/
theorem fetch_failure_leaves_record_in_progress (env env₂ : PollEnv) (st : VGState)
    (sid : String) (ji : JobInfo) (r : InvokeResponse) (e : String)
    (h : pyGet st.active_jobs sid = some ji)
    (hip : ji.status = "in_progress")
    (hr : env.invokeResp = Except.ok r)
    (hc : r.status = "Completed")
    (hu : r.s3Uri ≠ "")
    (hdl : download_from_s3 env.s3 r.s3Uri = Except.error e) :
    (check_async_video_status env st sid).result.status = "unknown" ∧
    (check_async_video_status env st sid).result.message = "获取生成结果时出错: " ++ e ∧
    (check_async_video_status env st sid).state = st ∧
    (pyGet (check_async_video_status env st sid).state.active_jobs sid).map
      JobInfo.status = some "in_progress" ∧
    ((get_async_nova_reel_result env₂.invokeResp env₂.s3 ji.job_id).status =
        "completed" → env₂.artifactWriteOk = true →
      (check_async_video_status env₂ (check_async_video_status env st sid).state
        sid).result.status = "completed") := by
  have hga : get_async_nova_reel_result env.invokeResp env.s3 ji.job_id =
      { status := "error", message := "获取生成结果时出错: " ++ e } := by
    rw [hr]
    simp only [get_async_nova_reel_result]
    rw [if_pos hc, if_pos hu, hdl]
  have h1 : (get_async_nova_reel_result env.invokeResp env.s3 ji.job_id).status ≠ "completed" := by
    rw [hga]
    exact (show ("error" : String) ≠ "completed" by decide)
  have h2 : (get_async_nova_reel_result env.invokeResp env.s3 ji.job_id).status ≠ "in_progress" := by
    rw [hga]
    exact (show ("error" : String) ≠ "in_progress" by decide)
  have h3 : (get_async_nova_reel_result env.invokeResp env.s3 ji.job_id).status ≠ "failed" := by
    rw [hga]
    exact (show ("error" : String) ≠ "failed" by decide)
  have hcheck := check_unknown_branch env st sid ji h h1 h2 h3
  refine ⟨by rw [hcheck, hga], by rw [hcheck, hga], by rw [hcheck], ?_, ?_⟩
  · rw [hcheck]
    show (pyGet st.active_jobs sid).map JobInfo.status = some "in_progress"
    rw [h, Option.map_some', hip]
  · intro hc2 hw2
    rw [hcheck]
    show (check_async_video_status env₂ st sid).result.status = "completed"
    simp only [check_async_video_status, h]
    rw [if_pos hc2, hw2, if_pos rfl]

/-- C4 witness: provider completion with an empty output namespace leaves
the in-progress record untouched; a later poll against the populated
namespace completes. -/
theorem fetch_failure_leaves_record_in_progress_witness :
    pyGet (sampleState "in_progress").active_jobs "s1" =
      some (sampleJob "in_progress") ∧
    (sampleJob "in_progress").status = "in_progress" ∧
    envEmptyNs.invokeResp = Except.ok respDone ∧
    download_from_s3 envEmptyNs.s3 "s3://bkt/up/1" =
      Except.error ("Failed to download video from S3: No files found in S3 output directory") ∧
    ((check_async_video_status envEmptyNs (sampleState "in_progress") "s1").result.status = "unknown" ∧
      (check_async_video_status envEmptyNs (sampleState "in_progress") "s1").result.message =
        "获取生成结果时出错: " ++
          "Failed to download video from S3: No files found in S3 output directory" ∧
      (check_async_video_status envEmptyNs (sampleState "in_progress") "s1").state =
        sampleState "in_progress" ∧
      (pyGet (check_async_video_status envEmptyNs (sampleState "in_progress") "s1").state.active_jobs
        "s1").map JobInfo.status = some "in_progress" ∧
      ((get_async_nova_reel_result (envDone true true).invokeResp (envDone true true).s3
          (sampleJob "in_progress").job_id).status = "completed" →
        (envDone true true).artifactWriteOk = true →
        (check_async_video_status (envDone true true)
          (check_async_video_status envEmptyNs (sampleState "in_progress") "s1").state
          "s1").result.status = "completed")) :=
  ⟨by decide, by decide, by decide, by decide,
    fetch_failure_leaves_record_in_progress envEmptyNs (envDone true true)
      (sampleState "in_progress") "s1" (sampleJob "in_progress") respDone
      ("Failed to download video from S3: No files found in S3 output directory")
      (by decide) (by decide) (by decide) (by decide) (by decide) (by decide)⟩

/-- C1 counterexample: a session already in the terminal `completed` state
is polled again — the claim predicts zero further `GenerationClient.status`
calls and the cached record returned, but the code makes one more status
call and, with the provider reporting completion again, re-fetches the
artifact and rebuilds a completed result (a duplicate artifact fetch). -/
theorem poll_terminal_not_cached_cex :
    (sampleJob "completed").status = "completed" ∧
    pyGet (sampleState "completed").active_jobs "s1" = some (sampleJob "completed") ∧
    (check_async_video_status (envDone true true) (sampleState "completed")
      "s1").statusCalls ≠ 0 ∧
    (check_async_video_status (envDone true true) (sampleState "completed")
      "s1").statusCalls = 1 ∧
    (check_async_video_status (envDone true true) (sampleState "completed")
      "s1").result.video_path = some ("generated_videos/video_s1_20260101_000000.mp4") := by
  refine ⟨by decide, by decide, by decide, by decide, by decide⟩

/-- C1 amended: `check_async_video_status` has no terminal-state cache —
polling a session whose record is already `completed` or `failed` still
makes exactly one further `GenerationClient.status` call per poll (and the
result is recomputed from the fresh provider response rather than returned
from the cached record). -/
theorem poll_terminal_still_calls_provider (env : PollEnv) (st : VGState)
    (sid : String) (ji : JobInfo) (h : pyGet st.active_jobs sid = some ji)
    (hterm : ji.status = "completed" ∨ ji.status = "failed") :
    (check_async_video_status env st sid).statusCalls = 1 := by
  simp only [check_async_video_status, h]
  split
  · split <;> rfl
  · split
    · rfl
    · split <;> rfl

/-- C1 witness: polling a failed session still performs one status call. -/
theorem poll_terminal_still_calls_provider_witness :
    pyGet (sampleState "failed").active_jobs "s1" = some (sampleJob "failed") ∧
    ((sampleJob "failed").status = "completed" ∨ (sampleJob "failed").status = "failed") ∧
    (check_async_video_status envOdd (sampleState "failed") "s1").statusCalls = 1 :=
  ⟨by decide, by decide,
    poll_terminal_still_calls_provider envOdd (sampleState "failed") "s1"
      (sampleJob "failed") (by decide) (by decide)⟩

/-- C6 counterexample: with the provider completed, the artifact written,
but the `jobs.json` write failing, the claim predicts an error surfaced to
the caller and both in-memory and persisted state left at the last
known-good state — the code instead reports `completed`, advances the
in-memory record, and only the persisted table keeps the old state. -/
theorem store_write_failure_swallowed_cex :
    (envDone true false).storeWriteOk = false ∧
    (check_async_video_status (envDone true false) (sampleState "in_progress")
      "s1").result.status = "completed" ∧
    (pyGet (check_async_video_status (envDone true false) (sampleState "in_progress")
      "s1").state.active_jobs "s1").map JobInfo.status = some "completed" ∧
    (check_async_video_status (envDone true false) (sampleState "in_progress")
      "s1").state.persisted = (sampleState "in_progress").persisted := by
  refine ⟨by decide, by decide, by decide, by decide⟩

/-- C6 amended: a failing local artifact write is surfaced as an `error`
result with neither in-memory nor persisted state advanced; a failing
job-store write, however, is caught and logged inside `_save_jobs` and not
surfaced — the poll reports its normal result, the in-memory record
advances, and only the persisted table stays at its last known-good
state. -/
theorem local_io_error_spec (env : PollEnv) (st : VGState) (sid : String)
    (ji : JobInfo) (h : pyGet st.active_jobs sid = some ji)
    (hc : (get_async_nova_reel_result env.invokeResp env.s3 ji.job_id).status =
      "completed") :
    (env.artifactWriteOk = false →
      (check_async_video_status env st sid).result.status = "error" ∧
      (check_async_video_status env st sid).result.message =
        "检查生成状态时出错: " ++ env.artifactWriteErr ∧
      (check_async_video_status env st sid).state = st) ∧
    (env.artifactWriteOk = true → env.storeWriteOk = false →
      (check_async_video_status env st sid).result.status = "completed" ∧
      pyGet (check_async_video_status env st sid).state.active_jobs sid =
        some { ji with
          status := "completed"
          completed_at := some env.nowIso
          video_path := some (st.output_dir ++ "/" ++
            ("video_" ++ sid ++ "_" ++ env.nowStamp ++ ".mp4"))
          video_filename := some ("video_" ++ sid ++ "_" ++ env.nowStamp ++ ".mp4") } ∧
      (check_async_video_status env st sid).state.persisted = st.persisted) := by
  constructor
  · intro hw
    have hcheck : check_async_video_status env st sid =
        { result :=
            { status := "error"
              message := "检查生成状态时出错: " ++ env.artifactWriteErr
              error_details := some env.artifactWriteErr }
          state := st
          statusCalls := 1 } := by
      simp only [check_async_video_status, h]
      rw [if_pos hc, hw, if_neg (show ¬(false = true) by decide)]
    exact ⟨by rw [hcheck], by rw [hcheck], by rw [hcheck]⟩
  · intro hw hs
    have hcheck : check_async_video_status env st sid =
        { result :=
            { status := "completed"
              message := "多镜头视频生成完成"
              video_path := some (st.output_dir ++ "/" ++
                ("video_" ++ sid ++ "_" ++ env.nowStamp ++ ".mp4"))
              video_filename := some ("video_" ++ sid ++ "_" ++ env.nowStamp ++ ".mp4")
              shots_count := some ji.shots_count
              images_count := some ji.images_count
              style := some ji.style
              category := some ji.category
              generation_type := some ji.generation_type }
          state :=
            { st with
              active_jobs := pyDictSet st.active_jobs sid
                { ji with
                  status := "completed"
                  completed_at := some env.nowIso
                  video_path := some (st.output_dir ++ "/" ++
                    ("video_" ++ sid ++ "_" ++ env.nowStamp ++ ".mp4"))
                  video_filename :=
                    some ("video_" ++ sid ++ "_" ++ env.nowStamp ++ ".mp4") } }
          statusCalls := 1 } := by
      simp only [check_async_video_status, h]
      rw [if_pos hc, hw, if_pos rfl, hs]
      simp only [save_jobs]
      rw [if_neg (show ¬(false = true) by decide)]
    refine ⟨by rw [hcheck], ?_, by rw [hcheck]⟩
    rw [hcheck]
    show pyGet (pyDictSet st.active_jobs sid _) sid = _
    exact pyGet_pyDictSet_self _ (by simp [h])

/-- C6 witness: the amended behaviour at a concrete in-progress session
with the provider completed and the store write failing. -/
theorem local_io_error_spec_witness :
    pyGet (sampleState "in_progress").active_jobs "s1" =
      some (sampleJob "in_progress") ∧
    (get_async_nova_reel_result (envDone true false).invokeResp
      (envDone true false).s3 (sampleJob "in_progress").job_id).status = "completed" ∧
    (((envDone true false).artifactWriteOk = false →
      (check_async_video_status (envDone true false) (sampleState "in_progress")
        "s1").result.status = "error" ∧
      (check_async_video_status (envDone true false) (sampleState "in_progress")
        "s1").result.message =
        "检查生成状态时出错: " ++ (envDone true false).artifactWriteErr ∧
      (check_async_video_status (envDone true false) (sampleState "in_progress")
        "s1").state = sampleState "in_progress") ∧
    ((envDone true false).artifactWriteOk = true →
      (envDone true false).storeWriteOk = false →
      (check_async_video_status (envDone true false) (sampleState "in_progress")
        "s1").result.status = "completed" ∧
      pyGet (check_async_video_status (envDone true false) (sampleState "in_progress")
        "s1").state.active_jobs "s1" =
        some { sampleJob "in_progress" with
          status := "completed"
          completed_at := some (envDone true false).nowIso
          video_path := some ((sampleState "in_progress").output_dir ++ "/" ++
            ("video_" ++ "s1" ++ "_" ++ (envDone true false).nowStamp ++ ".mp4"))
          video_filename :=
            some ("video_" ++ "s1" ++ "_" ++ (envDone true false).nowStamp ++ ".mp4") } ∧
      (check_async_video_status (envDone true false) (sampleState "in_progress")
        "s1").state.persisted = (sampleState "in_progress").persisted)) :=
  ⟨by decide, by decide,
    local_io_error_spec (envDone true false) (sampleState "in_progress") "s1"
      (sampleJob "in_progress") (by decide) (by decide)⟩

/-- C3: submit validates before any external call — an empty image list,
more than 8 images, or an unresolvable path each fail with an error dict
before Claude or Nova Reel is invoked and leave the state untouched; any
provider failure (Claude or Nova Reel) also returns an error dict with no
record created or persisted; and when 1–8 resolvable images are given and
the providers succeed, the call succeeds with a non-empty session id. -/
theorem submit_validation_spec (env : SubmitEnv) (st : VGState)
    (images : List String) (style category : String) :
    (images = [] →
      start_async_video_generation env st images style category =
        { result :=
            { status := "error"
              message := "启动多镜头视频生成失败: No images provided"
              error_details := some ("No images provided") }
          state := st
          externalCalls := 0 }) ∧
    (8 < images.length →
      start_async_video_generation env st images style category =
        { result :=
            { status := "error"
              message := "启动多镜头视频生成失败: Maximum 8 images allowed for multi-shot video"
              error_details := some ("Maximum 8 images allowed for multi-shot video") }
          state := st
          externalCalls := 0 }) ∧
    (images ≠ [] → images.length ≤ 8 →
      ∀ missing, images.find? (fun i => !(env.fileExists i)) = some missing →
        start_async_video_generation env st images style category =
          { result :=
              { status := "error"
                message := "启动多镜头视频生成失败: Image file not found: " ++ missing
                error_details := some ("Image file not found: " ++ missing) }
            state := st
            externalCalls := 0 }) ∧
    (images ≠ [] → images.length ≤ 8 →
      images.find? (fun i => !(env.fileExists i)) = none →
      ∀ e, env.claude = Except.error e →
        start_async_video_generation env st images style category =
          { result :=
              { status := "error"
                message := "启动多镜头视频生成失败: " ++ e
                error_details := some e }
            state := st
            externalCalls := 1 }) ∧
    (images ≠ [] → images.length ≤ 8 →
      images.find? (fun i => !(env.fileExists i)) = none →
      ∀ shots e, env.claude = Except.ok shots → env.nova = Except.error e →
        start_async_video_generation env st images style category =
          { result :=
              { status := "error"
                message := "启动多镜头视频生成失败: " ++ e
                error_details := some e }
            state := st
            externalCalls := 2 }) ∧
    (images ≠ [] → images.length ≤ 8 →
      images.find? (fun i => !(env.fileExists i)) = none →
      ∀ shots jid, env.claude = Except.ok shots → env.nova = Except.ok jid →
        (start_async_video_generation env st images style category).result.status =
          "success" ∧
        (start_async_video_generation env st images style category).result.session_id =
          some ("session_" ++ env.uuidHex) ∧
        "session_" ++ env.uuidHex ≠ "" ∧
        (start_async_video_generation env st images style category).result.message =
          "多镜头视频生成已开始 (" ++ toString shots.length ++ " 个镜头)") := by
  refine ⟨?_, ?_, ?_, ?_, ?_, ?_⟩
  · intro h0
    simp only [start_async_video_generation]
    rw [if_pos h0]
  · intro h8
    have h0 : ¬ images = [] := by
      intro he
      rw [he] at h8
      simp at h8
    simp only [start_async_video_generation]
    rw [if_neg h0, if_pos h8]
  · intro h0 hle missing hfind
    simp only [start_async_video_generation]
    rw [if_neg h0, if_neg (by omega), hfind]
  · intro h0 hle hfind e hcl
    simp only [start_async_video_generation]
    rw [if_neg h0, if_neg (by omega), hfind, hcl]
  · intro h0 hle hfind shots e hcl hnv
    simp only [start_async_video_generation]
    rw [if_neg h0, if_neg (by omega), hfind, hcl, hnv]
  · intro h0 hle hfind shots jid hcl hnv
    have hres : (start_async_video_generation env st images style category).result =
        { status := "success"
          message := "多镜头视频生成已开始 (" ++ toString shots.length ++ " 个镜头)"
          session_id := some ("session_" ++ env.uuidHex)
          job_id := some jid
          shots_count := some shots.length } := by
      simp only [start_async_video_generation]
      rw [if_neg h0, if_neg (by omega), hfind, hcl, hnv]
    refine ⟨by rw [hres], by rw [hres],
      ne_empty_of_data_ne_nil _ (data_ne_nil_of_append_left _ (by decide)),
      by rw [hres]⟩

/-- C3 witness: a single resolvable image with both providers succeeding
returns success and a non-empty session id; nine images are rejected with
no external call and no state change. -/
theorem submit_validation_spec_witness :
    (["a.jpg"] : List String) ≠ [] ∧
    (["a.jpg"] : List String).length ≤ 8 ∧
    (["a.jpg"] : List String).find? (fun i => !(envSubmitOk.fileExists i)) = none ∧
    envSubmitOk.claude = Except.ok ["shot one", "shot two"] ∧
    envSubmitOk.nova = Except.ok "arn1" ∧
    ((start_async_video_generation envSubmitOk emptyState ["a.jpg"] "cinematic"
        "nature").result.status = "success" ∧
      (start_async_video_generation envSubmitOk emptyState ["a.jpg"] "cinematic"
        "nature").result.session_id = some ("session_" ++ envSubmitOk.uuidHex) ∧
      "session_" ++ envSubmitOk.uuidHex ≠ "" ∧
      (start_async_video_generation envSubmitOk emptyState ["a.jpg"] "cinematic"
        "nature").result.message =
        "多镜头视频生成已开始 (" ++
          toString (["shot one", "shot two"] : List String).length ++ " 个镜头)") ∧
    8 < (["1", "2", "3", "4", "5", "6", "7", "8", "9"] : List String).length ∧
    start_async_video_generation envSubmitOk emptyState
        ["1", "2", "3", "4", "5", "6", "7", "8", "9"] "cinematic" "nature" =
      { result :=
          { status := "error"
            message := "启动多镜头视频生成失败: Maximum 8 images allowed for multi-shot video"
            error_details := some ("Maximum 8 images allowed for multi-shot video") }
        state := emptyState
        externalCalls := 0 } :=
  ⟨by decide, by decide, by decide, by decide, by decide,
    (submit_validation_spec envSubmitOk emptyState ["a.jpg"] "cinematic"
        "nature").2.2.2.2.2 (by decide) (by decide) (by decide)
      ["shot one", "shot two"] "arn1" (by decide) (by decide),
    by decide,
    (submit_validation_spec envSubmitOk emptyState
        ["1", "2", "3", "4", "5", "6", "7", "8", "9"] "cinematic"
        "nature").2.1 (by decide)⟩

/-- C10: the two public orchestrator operations are total functions of
their inputs and collaborator outcomes: every branch, including
collaborator failures, yields a dict whose `status` is drawn from the
closed set (`success`/`error` for submit; `completed`/`in_progress`/
`failed`/`unknown`/`error` for poll) together with a nonempty
human-readable `message`. -/
theorem public_ops_closed_status (env : SubmitEnv) (env₂ : PollEnv)
    (st st₂ : VGState) (images : List String) (style category sid : String) :
    ((start_async_video_generation env st images style category).result.status =
        "success" ∨
      (start_async_video_generation env st images style category).result.status =
        "error") ∧
    (start_async_video_generation env st images style category).result.message ≠ "" ∧
    (check_async_video_status env₂ st₂ sid).result.status ∈
      (["completed", "in_progress", "failed", "unknown", "error"] : List String) ∧
    (check_async_video_status env₂ st₂ sid).result.message ≠ "" := by
  refine ⟨?_, ?_, ?_, ?_⟩
  · simp only [start_async_video_generation]
    split
    · right; rfl
    · split
      · right; rfl
      · split
        · right; rfl
        · split
          · right; rfl
          · split
            · right; rfl
            · left; rfl
  · simp only [start_async_video_generation]
    split
    · exact ne_empty_of_data_ne_nil ("启动多镜头视频生成失败: No images provided") (by decide)
    · split
      · exact ne_empty_of_data_ne_nil
          ("启动多镜头视频生成失败: Maximum 8 images allowed for multi-shot video") (by decide)
      · split
        · exact ne_empty_of_data_ne_nil _ (data_ne_nil_of_append_left _ (by decide))
        · split
          · exact ne_empty_of_data_ne_nil _ (data_ne_nil_of_append_left _ (by decide))
          · split
            · exact ne_empty_of_data_ne_nil _ (data_ne_nil_of_append_left _ (by decide))
            · exact ne_empty_of_data_ne_nil _
                (data_ne_nil_of_append_left _ (data_ne_nil_of_append_left _ (by decide)))
  · simp only [check_async_video_status]
    split
    · exact (show ("error" : String) ∈
        (["completed", "in_progress", "failed", "unknown", "error"] : List String)
        by decide)
    · split
      · split
        · exact (show ("completed" : String) ∈
            (["completed", "in_progress", "failed", "unknown", "error"] : List String)
            by decide)
        · exact (show ("error" : String) ∈
            (["completed", "in_progress", "failed", "unknown", "error"] : List String)
            by decide)
      · split
        · exact (show ("in_progress" : String) ∈
            (["completed", "in_progress", "failed", "unknown", "error"] : List String)
            by decide)
        · split
          · exact (show ("failed" : String) ∈
              (["completed", "in_progress", "failed", "unknown", "error"] : List String)
              by decide)
          · exact (show ("unknown" : String) ∈
              (["completed", "in_progress", "failed", "unknown", "error"] : List String)
              by decide)
  · simp only [check_async_video_status]
    split
    · exact ne_empty_of_data_ne_nil ("未找到对应的生成任务") (by decide)
    · split
      · split
        · exact ne_empty_of_data_ne_nil ("多镜头视频生成完成") (by decide)
        · exact ne_empty_of_data_ne_nil _ (data_ne_nil_of_append_left _ (by decide))
      · split
        · exact nova_message_ne_empty _ _ _
        · split
          · exact nova_message_ne_empty _ _ _
          · exact nova_message_ne_empty _ _ _

end NovaReel
